import Mathlib

/-!
Verification of the pywizlight UDP smart-bulb client library.

This file shallowly embeds the parts of the library that the checked
claims concern:

* `pywizlight/utils.py` — the lossy 0-255 ↔ 0-100 brightness scale
  conversion (`hex_to_percent`, `percent_to_hex`), using Python 3's
  banker's rounding (`pyRound`);
* `pywizlight/bulb.py` — `states_match`, `_rgb_in_range_or_raise`,
  the `PilotBuilder` constructor with its setters, and the outcome
  classification of `wizlight.send` / `wizlight._on_response`;
* `pywizlight/vec.py` and `pywizlight/rgbcw.py` — the RGB ↔ RGB+white
  color model (`trapezoid`, `rgb2rgbcw`, `rgbcw2hs`, `hs2rgbcw`),
  embedded over the real numbers;
* `pywizlight/push_manager.py` — the push subscription manager's
  start/stop state machine, with the OS-dependent outcomes (source-ip
  lookup, port binding) abstracted into an environment record.

Python dictionaries are modelled as association lists with unique keys;
Python `int()` truncation and `round()` are modelled explicitly.
-/

/-- A JSON-ish scalar value as stored in pilot/state dictionaries. -/
inductive JVal where
  | i (n : ℤ)
  | s (t : String)
  | b (v : Bool)
  deriving DecidableEq

/-- A Python dict of scalars, as an association list (insertion order). -/
abbrev JDict := List (String × JVal)

/-- Python `d.get(k)`: the value of the first entry with key `k`, if any. -/
def dictGet : JDict → String → Option JVal
  | [], _ => none
  | (k', v) :: rest, k => if k' = k then some v else dictGet rest k

/-- Python `d[k] = v`: replace the existing entry in place, else append. -/
def dictSet : JDict → String → JVal → JDict
  | [], k, v => [(k, v)]
  | (k', v') :: rest, k, v =>
    if k' = k then (k, v) :: rest else (k', v') :: dictSet rest k v

theorem dictGet_dictSet_self (d : JDict) (k : String) (v : JVal) :
    dictGet (dictSet d k v) k = some v := by
  induction d with
  | nil => simp [dictSet, dictGet]
  | cons hd tl ih =>
    by_cases h : hd.1 = k
    · simp [dictSet, dictGet, h]
    · simp [dictSet, dictGet, h, ih]

theorem dictGet_dictSet_ne (d : JDict) (k k' : String) (v : JVal)
    (h : k ≠ k') : dictGet (dictSet d k v) k' = dictGet d k' := by
  induction d with
  | nil => simp [dictSet, dictGet, h]
  | cons hd tl ih =>
    by_cases hh : hd.1 = k
    · simp [dictSet, dictGet, hh, h]
    · simp [dictSet, dictGet, hh, ih]

/-- With duplicate-free keys (always true of a Python dict), iteration
entries agree with lookup. -/
theorem dictGet_of_mem {d : JDict} {k : String} {v : JVal}
    (hnd : (d.map Prod.fst).Nodup) (hm : (k, v) ∈ d) :
    dictGet d k = some v := by
  induction d with
  | nil => simp at hm
  | cons hd tl ih =>
    simp only [List.map_cons, List.nodup_cons] at hnd
    rcases List.mem_cons.1 hm with h | h
    · subst h; simp [dictGet]
    · have hk : hd.1 ≠ k := by
        intro he
        exact hnd.1 (he ▸ (List.mem_map.2 ⟨(k, v), h, rfl⟩))
      simp [dictGet, hk, ih hnd.2 h]

/-! ## `pywizlight/utils.py` -/

/-- Python 3 `round` on an exact rational: round half to even. -/
def pyRound (x : ℚ) : ℤ :=
  let f := ⌊x⌋
  let r := x - f
  if r < 1 / 2 then f
  else if 1 / 2 < r then f + 1
  else if 2 ∣ f then f else f + 1

theorem pyRound_low {x : ℚ} {n : ℤ} (h0 : (n : ℚ) ≤ x)
    (h1 : x < (n : ℚ) + 1 / 2) : pyRound x = n := by
  have hf : ⌊x⌋ = n := Int.floor_eq_iff.mpr ⟨h0, by linarith⟩
  unfold pyRound
  rw [hf, if_pos (by linarith)]

theorem pyRound_high {x : ℚ} {n : ℤ} (h0 : (n : ℚ) + 1 / 2 < x)
    (h1 : x < (n : ℚ) + 1) : pyRound x = n + 1 := by
  have hf : ⌊x⌋ = n := Int.floor_eq_iff.mpr ⟨by linarith, by linarith⟩
  unfold pyRound
  rw [hf, if_neg (by push_neg; linarith), if_pos (by linarith)]

theorem pyRound_half {n : ℤ} :
    pyRound ((n : ℚ) + 1 / 2) = if 2 ∣ n then n else n + 1 := by
  have hf : ⌊(n : ℚ) + 1 / 2⌋ = n :=
    Int.floor_eq_iff.mpr ⟨by linarith, by linarith⟩
  unfold pyRound
  rw [hf, if_neg (by push_neg; linarith), if_neg (by push_neg; linarith)]

/-- `hex_to_percent`: `round((hex_value / 255) * 100)`. -/
def hex_to_percent (hex_value : ℚ) : ℤ :=
  pyRound (hex_value / 255 * 100)

/-- `percent_to_hex`: `int(round((percent / 100) * 255))`. -/
def percent_to_hex (percent : ℚ) : ℤ :=
  pyRound (percent / 100 * 255)

/-! ## `states_match` (`pywizlight/bulb.py`) -/

/-- `_IGNORE_STATE_KEYS = {"mqttCd", "ts", "rssi"}`. -/
def IGNORE_STATE_KEYS : List String := ["mqttCd", "ts", "rssi"]

/-- `ALWAYS_SEND_SRCS = set([PIR_SOURCE, *WIZMOTE_BUTTON_MAP])`. -/
def ALWAYS_SEND_SRCS : List String :=
  ["pir", "wfa1", "wfa2", "wfa3", "wfa8", "wfa9",
   "wfa16", "wfa17", "wfa18", "wfa19"]

/-- Python `x in ALWAYS_SEND_SRCS` for an optional dict value: only a
string can be a member of a set of strings; `None` is not a member. -/
def srcAlways (v : Option JVal) : Bool :=
  match v with
  | some (.s t) => decide (t ∈ ALWAYS_SEND_SRCS)
  | _ => false

/-- `states_match(old, new)` from `pywizlight/bulb.py`. -/
def states_match (old new : JDict) : Bool :=
  let old_src := dictGet old "src"
  let new_src := dictGet new "src"
  if new_src ≠ old_src ∧ (srcAlways new_src || srcAlways old_src) then
    false
  else
    new.all fun kv =>
      decide (kv.1 = "src") || decide (dictGet old kv.1 = some kv.2) ||
        decide (kv.1 ∈ IGNORE_STATE_KEYS)

/-! ## `pywizlight/vec.py`, embedded over the reals -/

noncomputable section
open Real

/-- `EPSILON = 1.0e-5`. -/
def EPSILON : ℝ := 1 / 100000

/-- A 2-component vector (hue plane). -/
abbrev V2 := ℝ × ℝ

/-- A 3-component vector (RGB). -/
abbrev V3 := ℝ × ℝ × ℝ

/-- `vecDot` on 2-vectors. -/
def vecDot (a b : V2) : ℝ := a.1 * b.1 + a.2 * b.2

/-- `vecLenSq`. -/
def vecLenSq (a : V2) : ℝ := vecDot a a

/-- `vecLen`: note the code compares the squared length against
`EPSILON` and returns `0` for short vectors. -/
def vecLen (a : V2) : ℝ :=
  if vecLenSq a > EPSILON then Real.sqrt (vecLenSq a) else 0

/-- `vecAdd` on 2-vectors. -/
def vecAdd (a b : V2) : V2 := (a.1 + b.1, a.2 + b.2)

/-- `vecMul` on 2-vectors. -/
def vecMul (a : V2) (sca : ℝ) : V2 := (a.1 * sca, a.2 * sca)

/-- `vecMul` on 3-vectors. -/
def vecMul3 (a : V3) (sca : ℝ) : V3 := (a.1 * sca, a.2.1 * sca, a.2.2 * sca)

/-- `vecFromAngle`. -/
def vecFromAngle (angle : ℝ) : V2 := (Real.cos angle, Real.sin angle)

/-- Python `int()`: truncation toward zero. -/
def pyInt (x : ℝ) : ℤ := if 0 ≤ x then ⌊x⌋ else ⌈x⌉

/-- `vecInt` on 3-vectors. -/
def vecInt3 (a : V3) : ℤ × ℤ × ℤ := (pyInt a.1, pyInt a.2.1, pyInt a.2.2)

/-! ## `pywizlight/rgbcw.py` -/

/-- `ANGLE = (pi * 2) / 3`. -/
def ANGLE : ℝ := π * 2 / 3

/-- `BASIS[0] = vecFromAngle(0)`. -/
def BASIS0 : V2 := vecFromAngle 0

/-- `BASIS[1] = vecFromAngle(ANGLE)`. -/
def BASIS1 : V2 := vecFromAngle ANGLE

/-- `BASIS[2] = vecFromAngle(ANGLE * 2)`. -/
def BASIS2 : V2 := vecFromAngle (ANGLE * 2)

/-- `CWMAX = 128`. -/
def CWMAX : ℤ := 128

/-- `maxAngle = cos((pi * 2 / 3) - EPSILON)` from `trapezoid`. -/
def maxAngle : ℝ := Real.cos (π * 2 / 3 - EPSILON)

/-- The `count == 2` branch of `trapezoid`: ray/line intersection
coefficients for the two active basis vectors `u0`, `u1`. -/
def pairCoeff (hueVec u0 u1 : V2) : ℝ × ℝ :=
  let AB : V2 := (u1.2, u1.1 * (-1))
  let coeff0 := vecDot hueVec AB / vecDot u0 AB
  let intersection := vecAdd (vecMul u0 (-coeff0)) hueVec
  (coeff0, vecDot intersection u1)

/-- Gamut clamping: scale both coefficients by `1 / maxCoefficient`. -/
def scaledCoeff (c : ℝ × ℝ) : ℝ × ℝ :=
  let m := max c.1 c.2
  (c.1 / m, c.2 / m)

/-- The saturated RGB coefficient vector computed inside `trapezoid`
when the saturation is above `EPSILON`, by cases on the basis mask.
The masks with zero or three active basis vectors cannot arise for the
hue vectors the library passes in (the Python code would raise
`IndexError` on them); they are mapped to `(0, 0, 0)` here. -/
def satRGB (hueVec : V2) : V3 :=
  let d0 := vecDot hueVec BASIS0
  let d1 := vecDot hueVec BASIS1
  let d2 := vecDot hueVec BASIS2
  if maxAngle < d0 then
    if maxAngle < d1 then
      if maxAngle < d2 then (0, 0, 0)
      else
        let c := scaledCoeff (pairCoeff hueVec BASIS0 BASIS1)
        (min c.1 1, min c.2 1, 0)
    else if maxAngle < d2 then
      let c := scaledCoeff (pairCoeff hueVec BASIS0 BASIS2)
      (min c.1 1, 0, min c.2 1)
    else (1, 0, 0)
  else if maxAngle < d1 then
    if maxAngle < d2 then
      let c := scaledCoeff (pairCoeff hueVec BASIS1 BASIS2)
      (0, min c.1 1, min c.2 1)
    else (0, 1, 0)
  else if maxAngle < d2 then (0, 0, 1)
  else (0, 0, 0)

/-- The RGB coefficient vector of `trapezoid` before the white blend:
`(0, 0, 0)` for saturation at most `EPSILON`, else the basis-mask
computation. -/
def saturatedRGB (hueVec : V2) (saturation : ℝ) : V3 :=
  if saturation ≤ EPSILON then (0, 0, 0) else satRGB hueVec

/-- `trapezoid(hueVec, saturation)`. -/
def trapezoid (hueVec : V2) (saturation : ℝ) : (ℤ × ℤ × ℤ) × ℤ :=
  let rgb := saturatedRGB hueVec saturation
  let cw : ℝ := if saturation ≥ 1 / 2 then 1 - (saturation - 1 / 2) * 2 else 1
  let rgb := if saturation ≥ 1 / 2 then rgb else vecMul3 rgb (saturation * 2)
  (vecInt3 (vecMul3 rgb 255), pyInt (max 0 (cw * (CWMAX : ℝ))))

/-- The hue vector both `rgb2rgbcw` and `rgbcw2hs` compute: scale the
RGB vector into `[0,1]` and sum the scaled basis vectors. -/
def hueVecOf (rgb : V3) : V2 :=
  let c := vecMul3 rgb (1 / 255)
  vecAdd (vecAdd (vecMul BASIS0 c.1) (vecMul BASIS1 c.2.1)) (vecMul BASIS2 c.2.2)

/-- `rgb2rgbcw(rgb)`. -/
def rgb2rgbcw (rgb : V3) : (ℤ × ℤ × ℤ) × ℤ :=
  let hueVec := hueVecOf rgb
  let saturation := vecLen hueVec
  let hueVec := if saturation > EPSILON then vecMul hueVec (1 / saturation) else hueVec
  trapezoid hueVec saturation

/-- C's `atan2(y, x)`, which Python's `math.atan2` wraps. -/
def atan2 (y x : ℝ) : ℝ :=
  if 0 < x then arctan (y / x)
  else if x < 0 then
    if 0 ≤ y then arctan (y / x) + π else arctan (y / x) - π
  else
    if 0 < y then π / 2 else if y < 0 then -(π / 2) else 0

/-- `rgbcw2hs(rgb, cw)`.  The `while hue < 0` loop runs at most once
since `atan2` returns values in `[-π, π]`; it is modelled by a single
conditional addition.  The Python statement `vecMul(hueVec, 1 /
hueVecLength)` discards its result, so the hue vector stays
unnormalized (the hue angle is unaffected). -/
def rgbcw2hs (rgb : V3) (cw : ℝ) : ℝ × ℝ :=
  let cwc := min cw (CWMAX : ℝ) / (CWMAX : ℝ)
  let hueVec := hueVecOf rgb
  let saturation :=
    if cwc = 1 then vecLen hueVec * 0.5
    else 1 - cwc / 2
  let hue := atan2 hueVec.2 hueVec.1
  let hue := if hue < 0 then hue + π * 2 else hue
  (hue * (180 / π), saturation * 100)

/-- `hs2rgbcw(hs)`.  The `while hueCanonical >= 1` loop repeatedly
subtracts `1` and so terminates at the fractional part; values below
`1` (including negative ones) are left untouched. -/
def hs2rgbcw (hs : ℝ × ℝ) : (ℤ × ℤ × ℤ) × ℤ :=
  let hueCanonical := hs.1 / 360
  let hueCanonical := if hueCanonical ≥ 1 then Int.fract hueCanonical else hueCanonical
  let hueRadians := hueCanonical * π * 2
  let hueVec := vecFromAngle hueRadians
  let saturation := hs.2 / 100
  trapezoid hueVec saturation

/-- The hue angle, in degrees in `[0, 360)`, of an RGB triple — the
angle of its hue vector, extracted exactly as `rgbcw2hs` extracts it. -/
def hueDegOf (rgb : V3) : ℝ :=
  let v := hueVecOf rgb
  let hue := atan2 v.2 v.1
  let hue := if hue < 0 then hue + π * 2 else hue
  hue * (180 / π)

end

/-! ## `PilotBuilder` (`pywizlight/bulb.py`) -/

noncomputable section

/-- `self.pilot_params`. -/
abbrev Params := JDict

/-- `_rgb_in_range_or_raise`: checks red, then green, then blue. -/
def rgb_in_range_or_raise (rgb : V3) : Except String Unit :=
  if ¬ (0 ≤ rgb.1 ∧ rgb.1 < 256) then
    .error "Red is not in range between 0-255."
  else if ¬ (0 ≤ rgb.2.1 ∧ rgb.2.1 < 256) then
    .error "Green is not in range between 0-255."
  else if ¬ (0 ≤ rgb.2.2 ∧ rgb.2.2 < 256) then
    .error "Blue is not in range between 0-255."
  else .ok ()

/-- The error message `_rgb_in_range_or_raise` produces for an
out-of-range triple: the first failing component, in check order. -/
def rgbErrMsg (rgb : V3) : String :=
  if ¬ (0 ≤ rgb.1 ∧ rgb.1 < 256) then "Red is not in range between 0-255."
  else if ¬ (0 ≤ rgb.2.1 ∧ rgb.2.1 < 256) then "Green is not in range between 0-255."
  else "Blue is not in range between 0-255."

/-- `PilotBuilder._set_warm_white`. -/
def set_warm_white (p : Params) (value : ℤ) : Except String Params :=
  if 0 ≤ value ∧ value < 256 then .ok (dictSet p "w" (.i value))
  else .error "Value must be between 0 and 255"

/-- `PilotBuilder._set_cold_white`. -/
def set_cold_white (p : Params) (value : ℤ) : Except String Params :=
  if 0 ≤ value ∧ value < 256 then .ok (dictSet p "c" (.i value))
  else .error "Value must be between 0 and 255"

/-- `PilotBuilder._set_speed` with `_validate_speed_or_raise`. -/
def set_speed (p : Params) (value : ℤ) : Except String Params :=
  if 10 ≤ value ∧ value ≤ 200 then .ok (dictSet p "speed" (.i value))
  else .error "Value must be between 10 and 200"

/-- `PilotBuilder._set_ratio` with `_validate_ratio_or_raise`. -/
def setRatio (p : Params) (value : ℤ) : Except String Params :=
  if 0 ≤ value ∧ value ≤ 100 then .ok (dictSet p "ratio" (.i value))
  else .error "Value must be between 0 and 100"

/-- The key set of the `SCENES` table in `pywizlight/scenes.py`. -/
def SCENE_IDS : List ℤ :=
  [35, 10, 29, 27, 6, 13, 12, 33, 23, 22, 5, 7, 15, 30, 28, 24, 25, 14,
   1, 4, 31, 8, 2, 16, 3, 20, 21, 32, 17, 18, 34, 9, 11, 1000]

/-- `PilotBuilder._set_scene`. -/
def set_scene (p : Params) (scene_id : ℤ) : Except String Params :=
  if scene_id ∈ SCENE_IDS then .ok (dictSet p "sceneId" (.i scene_id))
  else .error "Scene is not available. Only 1 to 35 are supported"

/-- `PilotBuilder._set_brightness`. -/
def set_brightness (p : Params) (value : ℤ) : Except String Params :=
  let percent := hex_to_percent (value : ℚ)
  if percent > 101 then .error "Max value can be 100% with 255."
  else .ok (dictSet p "dimming" (.i (max 10 percent)))

/-- `PilotBuilder._set_colortemp`: silently clamps into `[1000, 10000]`. -/
def set_colortemp (p : Params) (kelvin : ℤ) : Except String Params :=
  .ok (dictSet p "temp" (.i (min 10000 (max 1000 kelvin))))

/-- Store an integer RGB triple under the keys of `RGB_ORDER`. -/
def setRGBKeys (p : Params) (rgb : ℤ × ℤ × ℤ) : Params :=
  dictSet (dictSet (dictSet p "r" (.i rgb.1)) "g" (.i rgb.2.1)) "b" (.i rgb.2.2)

/-- `PilotBuilder._set_rgb`: range check first, then the `rgb2rgbcw`
conversion, then the white channel via `_set_warm_white`. -/
def set_rgb (p : Params) (values : V3) : Except String Params :=
  match rgb_in_range_or_raise values with
  | .error e => .error e
  | .ok _ =>
    let out := rgb2rgbcw values
    set_warm_white (setRGBKeys p out.1) out.2

/-- `PilotBuilder._set_rgbw`. -/
def set_rgbw (p : Params) (rgbw : ℤ × ℤ × ℤ × ℤ) : Except String Params :=
  match rgb_in_range_or_raise ((rgbw.1 : ℝ), (rgbw.2.1 : ℝ), (rgbw.2.2.1 : ℝ)) with
  | .error e => .error e
  | .ok _ => set_warm_white (setRGBKeys p (rgbw.1, rgbw.2.1, rgbw.2.2.1)) rgbw.2.2.2

/-- `PilotBuilder._set_rgbww`. -/
def set_rgbww (p : Params) (rgbww : ℤ × ℤ × ℤ × ℤ × ℤ) : Except String Params :=
  match rgb_in_range_or_raise ((rgbww.1 : ℝ), (rgbww.2.1 : ℝ), (rgbww.2.2.1 : ℝ)) with
  | .error e => .error e
  | .ok _ =>
    match set_cold_white (setRGBKeys p (rgbww.1, rgbww.2.1, rgbww.2.2.1)) rgbww.2.2.2.1 with
    | .error e => .error e
    | .ok p => set_warm_white p rgbww.2.2.2.2

/-- `PilotBuilder._set_hs_color`: convert first, then range-check the
converted RGB, then store and set the white channel. -/
def set_hs_color (p : Params) (values : ℝ × ℝ) : Except String Params :=
  let out := hs2rgbcw values
  match rgb_in_range_or_raise ((out.1.1 : ℝ), (out.1.2.1 : ℝ), (out.1.2.2 : ℝ)) with
  | .error e => .error e
  | .ok _ => set_warm_white (setRGBKeys p out.1) out.2

/-- The keyword arguments of `PilotBuilder.__init__`. -/
structure PBArgs where
  warm_white : Option ℤ := none
  cold_white : Option ℤ := none
  speed : Option ℤ := none
  scene : Option ℤ := none
  rgb : Option V3 := none
  rgbw : Option (ℤ × ℤ × ℤ × ℤ) := none
  rgbww : Option (ℤ × ℤ × ℤ × ℤ × ℤ) := none
  hucolor : Option (ℝ × ℝ) := none
  brightness : Option ℤ := none
  colortemp : Option ℤ := none
  state : Option Bool := none
  ratio : Option ℤ := none

/-- The steps of `PilotBuilder.__init__` before the color directives:
state, speed, ratio, scene, brightness, in source order. -/
def preColor (state : Option Bool) (speed ratio scene brightness : Option ℤ) :
    Except String Params := do
  let p : Params := []
  let p := match state with | some st => dictSet p "state" (.b st) | none => p
  let p ← match speed with | some v => set_speed p v | none => .ok p
  let p ← match ratio with | some v => setRatio p v | none => .ok p
  let p ← match scene with | some v => set_scene p v | none => .ok p
  match brightness with | some v => set_brightness p v | none => .ok p

/-- The `if rgb is not None: ... elif rgbw ... elif rgbww ... elif
colortemp ... elif hucolor ...` chain of `PilotBuilder.__init__`. -/
def colorStep (a : PBArgs) (p : Params) : Except String Params :=
  match a.rgb with
  | some v => set_rgb p v
  | none =>
    match a.rgbw with
    | some v => set_rgbw p v
    | none =>
      match a.rgbww with
      | some v => set_rgbww p v
      | none =>
        match a.colortemp with
        | some v => set_colortemp p v
        | none =>
          match a.hucolor with
          | some v => set_hs_color p v
          | none => .ok p

/-- The trailing explicit white overrides of `PilotBuilder.__init__`. -/
def postColor (warm cold : Option ℤ) (p : Params) : Except String Params := do
  let p ← match warm with | some v => set_warm_white p v | none => .ok p
  match cold with | some v => set_cold_white p v | none => .ok p

/-- `PilotBuilder.__init__`: either the built `pilot_params` dict or the
message of the `ValueError` it raises. -/
def pilotBuilder (a : PBArgs) : Except String Params :=
  (preColor a.state a.speed a.ratio a.scene a.brightness).bind fun p =>
    (colorStep a p).bind (postColor a.warm_white a.cold_white)

end

/-! ## `wizlight.send` outcome classification (`pywizlight/bulb.py`)

`send` serializes the command, transmits it with retries, and awaits a
future that only `_on_response` (for a datagram) or `_on_error` (for an
OS-level socket error) can resolve, under an overall deadline.  The
asynchronous machinery is abstracted into the single awaited outcome;
the pure classification logic around it is embedded faithfully. -/

/-- The decoded fields of a response that `send` inspects: the `method`
name used for correlation and the `code` of an `error` object, when one
is present. -/
structure WizResponse where
  method : Option String
  errorCode : Option ℤ
  deriving DecidableEq

/-- What the await inside `send` can see: the overall deadline expiring,
an OS-level socket error surfaced through `_on_error`, or a datagram
delivered to `_on_response` (`none` when its payload is not valid
JSON). -/
inductive AwaitEvent where
  | timeout
  | socketError (msg : String)
  | datagram (raw : Option WizResponse)
  deriving DecidableEq

/-- The exception classes `send` can raise. -/
inductive SendError where
  | timeoutErr
  | connectionErr (msg : String)
  | methodNotFoundErr
  deriving DecidableEq

/-- `wizlight._on_response`: a JSON-decode failure fails the pending
request with a connection-class error; a datagram whose `method` does
not equal the outstanding request's method is ignored (the future stays
unresolved); a matching datagram resolves the future with the decoded
response. -/
def on_response (outstanding : String) (raw : Option WizResponse) :
    Option (Except SendError WizResponse) :=
  match raw with
  | none => some (.error (.connectionErr "Failed to decode json"))
  | some decoded =>
    if decoded.method ≠ some outstanding then none
    else some (.ok decoded)

/-- The post-await check in `send`: a response carrying an `error`
object raises `WizLightMethodNotFound` for code `-32601` and a generic
`WizLightConnectionError` for any other code. -/
def classifyResponse (resp : WizResponse) : Except SendError WizResponse :=
  match resp.errorCode with
  | some code =>
    if code = -32601 then .error .methodNotFoundErr
    else .error (.connectionErr "Error recieved")
  | none => .ok resp

/-- The outcome of one `send` call whose await sees `ev`: a datagram
that `_on_response` ignores leaves the future unresolved, so the
overall deadline expires (`WizLightTimeOutError`); an expired deadline
raises `WizLightTimeOutError`; an `OSError` raises
`WizLightConnectionError`; a resolved future is classified by the
error-object check. -/
def sendOutcome (outstanding : String) (ev : AwaitEvent) :
    Except SendError WizResponse :=
  match ev with
  | .timeout => .error .timeoutErr
  | .socketError msg => .error (.connectionErr msg)
  | .datagram raw =>
    match on_response outstanding raw with
    | none => .error .timeoutErr
    | some (.error e) => .error e
    | some (.ok resp) => classifyResponse resp

/-! ## `PushManager` (`pywizlight/push_manager.py`) -/

/-- The mutable state of the `PushManager` singleton: whether the
listener is running, whether a transport is bound to the listen port,
and the registered subscription macs (dict keys). -/
structure PMState where
  push_running : Bool
  transport : Bool
  subscriptions : List String
  deriving DecidableEq

/-- The OS-dependent outcomes `PushManager.start` consults: whether
`get_source_ip` can determine a local source ip toward the target, and
whether the fixed `LISTEN_PORT` can be bound (`create_udp_socket` does
not raise `OSError`). -/
structure PMEnv where
  source_ip : Option String
  port_free : Bool
  deriving DecidableEq

/-- `PushManager.start`: returns the boolean result together with the
successor state. -/
def pm_start (s : PMState) (env : PMEnv) : Bool × PMState :=
  if s.push_running then (true, s)
  else
    match env.source_ip with
    | none => (false, s)
    | some _ =>
      if env.port_free then
        (true, { s with push_running := true, transport := true })
      else (false, s)

/-- `PushManager.stop_if_no_subs`. -/
def pm_stop_if_no_subs (s : PMState) : PMState :=
  if ¬ s.push_running ∨ s.subscriptions ≠ [] then s
  else { s with push_running := false, transport := false }

/-- `PushManager.register`: store the callback under the mac (dict
insert). -/
def pm_register (s : PMState) (mac : String) : PMState :=
  { s with subscriptions :=
      if mac ∈ s.subscriptions then s.subscriptions
      else s.subscriptions ++ [mac] }

/-- The `_cancel` closure returned by `PushManager.register`: delete the
subscription, then `stop_if_no_subs`. -/
def pm_cancel (s : PMState) (mac : String) : PMState :=
  pm_stop_if_no_subs { s with subscriptions := s.subscriptions.filter (· ≠ mac) }

/-! ## Theorems -/

/-- Helper: when every non-`src`, non-ignored key of `new` looks up to
the same value in `old`, the field-by-field loop of `states_match`
accepts. -/
theorem states_match_loop_true {old new : JDict}
    (hnd : (new.map Prod.fst).Nodup)
    (heq : ∀ k, k ∈ new.map Prod.fst → k ≠ "src" → k ∉ IGNORE_STATE_KEYS →
      dictGet old k = dictGet new k) :
    (new.all fun kv =>
      decide (kv.1 = "src") || decide (dictGet old kv.1 = some kv.2) ||
        decide (kv.1 ∈ IGNORE_STATE_KEYS)) = true := by
  rw [List.all_eq_true]
  intro kv hkv
  obtain ⟨k, v⟩ := kv
  by_cases hsrc : k = "src"
  · simp [hsrc]
  · by_cases hig : k ∈ IGNORE_STATE_KEYS
    · simp [hig]
    · have hk : k ∈ new.map Prod.fst := List.mem_map.2 ⟨(k, v), hkv, rfl⟩
      have h2 : dictGet new k = some v := dictGet_of_mem hnd hkv
      have h3 : dictGet old k = some v := by
        rw [heq k hk hsrc hig]; exact h2
      simp [h3]

/-- C4: `states_match` returns `False` whenever the `src` tags differ
and one of them is in the always-notify set; it returns `True` when the
states agree on every non-ignored field besides `src` and neither `src`
belongs to the always-notify set; and a difference confined to the
ignored noisy fields alone (with `src` unchanged) never yields
`False`. -/
theorem states_match_src_spec (old new : JDict) :
    (dictGet new "src" ≠ dictGet old "src" →
      (srcAlways (dictGet new "src") = true ∨ srcAlways (dictGet old "src") = true) →
      states_match old new = false) ∧
    ((new.map Prod.fst).Nodup →
      srcAlways (dictGet new "src") = false →
      srcAlways (dictGet old "src") = false →
      (∀ k, k ∈ new.map Prod.fst → k ≠ "src" → k ∉ IGNORE_STATE_KEYS →
        dictGet old k = dictGet new k) →
      states_match old new = true) ∧
    (dictGet new "src" = dictGet old "src" →
      (new.map Prod.fst).Nodup →
      (∀ k, k ∈ new.map Prod.fst → k ≠ "src" → k ∉ IGNORE_STATE_KEYS →
        dictGet old k = dictGet new k) →
      states_match old new = true) := by
  refine ⟨fun hne hmem => ?_, fun hnd hn ho heq => ?_, fun hsame hnd heq => ?_⟩
  · unfold states_match
    rw [if_pos]
    exact ⟨hne, by rcases hmem with h | h <;> simp [h]⟩
  · unfold states_match
    rw [if_neg, states_match_loop_true hnd heq]
    rintro ⟨-, h2⟩
    rw [hn, ho] at h2
    simp at h2
  · unfold states_match
    rw [if_neg, states_match_loop_true hnd heq]
    rintro ⟨h1, -⟩
    exact h1 hsame

/-- C4 witness: a motion-sensor `src` change alone forces `False`; a
`src` change between two ordinary sources with equal fields matches. -/
theorem states_match_src_spec_witness :
    (dictGet [("src", JVal.s "pir"), ("state", JVal.b true)] "src" ≠
        dictGet [("src", JVal.s "hb"), ("state", JVal.b true)] "src" ∧
      states_match [("src", JVal.s "hb"), ("state", JVal.b true)]
        [("src", JVal.s "pir"), ("state", JVal.b true)] = false) ∧
    states_match [("src", JVal.s "hb"), ("state", JVal.b true)]
      [("src", JVal.s "udp"), ("state", JVal.b true)] = true := by
  refine ⟨⟨by decide, ?_⟩, ?_⟩
  · exact (states_match_src_spec [("src", JVal.s "hb"), ("state", JVal.b true)]
      [("src", JVal.s "pir"), ("state", JVal.b true)]).1 (by decide) (by decide)
  · exact (states_match_src_spec [("src", JVal.s "hb"), ("state", JVal.b true)]
      [("src", JVal.s "udp"), ("state", JVal.b true)]).2.1 (by decide) (by decide)
      (by decide) (by decide)

/-- C10: `states_match` is not symmetric: with equal (absent) `src`
tags, a state with an extra field matches the empty new state (the loop
only ranges over the new state's keys), while the reverse comparison
fails. -/
theorem states_match_not_symmetric :
    ∃ a b : JDict, dictGet a "src" = dictGet b "src" ∧
      states_match a b = true ∧ states_match b a = false := by
  refine ⟨[("state", JVal.b true)], [], by decide, by decide, by decide⟩

/-- C9: the 0-255 → 0-100 → 0-255 brightness round-trip is lossy (not
the identity on `[0, 255]`), while the documented fixed points hold:
`hex_to_percent 26 = 10`, `percent_to_hex 10 = 26`, and `107` survives
the round trip through `42`. -/
theorem brightness_scale_lossy :
    (¬ ∀ x : ℤ, 0 ≤ x → x ≤ 255 →
      percent_to_hex ((hex_to_percent (x : ℚ) : ℤ) : ℚ) = x) ∧
    hex_to_percent (26 : ℚ) = 10 ∧ percent_to_hex (10 : ℚ) = 26 ∧
    hex_to_percent (107 : ℚ) = 42 ∧ percent_to_hex (42 : ℚ) = 107 := by
  have e26 : hex_to_percent (26 : ℚ) = 10 := by
    unfold hex_to_percent; rw [show (26 : ℚ) / 255 * 100 = 520 / 51 by norm_num]
    exact pyRound_low (by norm_num) (by norm_num)
  have e10 : percent_to_hex (10 : ℚ) = 26 := by
    unfold percent_to_hex
    rw [show (10 : ℚ) / 100 * 255 = (25 : ℤ) + 1 / 2 by norm_num, pyRound_half]
    norm_num
  have e107 : hex_to_percent (107 : ℚ) = 42 := by
    unfold hex_to_percent
    rw [show (107 : ℚ) / 255 * 100 = 2140 / 51 by norm_num]
    exact pyRound_high (n := 41) (by norm_num) (by norm_num)
  have e42 : percent_to_hex (42 : ℚ) = 107 := by
    unfold percent_to_hex
    rw [show (42 : ℚ) / 100 * 255 = 1071 / 10 by norm_num]
    exact pyRound_low (by norm_num) (by norm_num)
  refine ⟨fun h => ?_, e26, e10, e107, e42⟩
  have e1 : hex_to_percent ((1 : ℤ) : ℚ) = 0 := by
    unfold hex_to_percent
    rw [show ((1 : ℤ) : ℚ) / 255 * 100 = 20 / 51 by norm_num]
    exact pyRound_low (n := 0) (by norm_num) (by norm_num)
  have h1 := h 1 (by decide) (by decide)
  rw [e1] at h1
  have e0 : percent_to_hex ((0 : ℤ) : ℚ) = 0 := by
    unfold percent_to_hex
    rw [show ((0 : ℤ) : ℚ) / 100 * 255 = 0 by norm_num]
    exact pyRound_low (n := 0) (by norm_num) (by norm_num)
  rw [e0] at h1
  exact absurd h1 (by decide)

/-- C8: the push manager's start/stop state machine: the first
successful `start` moves Stopped to Running and returns `True`; `start`
while Running is a no-op returning `True`; `start` reports failure and
stays Stopped when the source ip cannot be determined or the listen
port is taken; cancelling a subscription stops the manager exactly when
no subscriptions remain afterward. -/
theorem push_manager_state_machine (s : PMState) (env : PMEnv) (mac : String) :
    (s.push_running = false → env.source_ip ≠ none → env.port_free = true →
      pm_start s env = (true, { s with push_running := true, transport := true })) ∧
    (s.push_running = true → pm_start s env = (true, s)) ∧
    (s.push_running = false → env.source_ip = none → pm_start s env = (false, s)) ∧
    (s.push_running = false → env.port_free = false → pm_start s env = (false, s)) ∧
    (s.push_running = true →
      ((pm_cancel s mac).push_running = false ↔
        s.subscriptions.filter (· ≠ mac) = [])) := by
  refine ⟨fun hr hip hp => ?_, fun hr => ?_, fun hr hip => ?_, fun hr hp => ?_,
    fun hr => ?_⟩
  · obtain ⟨ip, hip'⟩ := Option.ne_none_iff_exists'.mp hip
    simp [pm_start, hr, hip', hp]
  · simp [pm_start, hr]
  · simp [pm_start, hr, hip]
  · cases hip : env.source_ip with
    | none => simp [pm_start, hr, hip]
    | some ip => simp [pm_start, hr, hip, hp]
  · obtain ⟨pr, tr, subs⟩ := s
    have hpr : pr = true := hr
    subst hpr
    unfold pm_cancel pm_stop_if_no_subs
    by_cases hs : subs.filter (· ≠ mac) = []
    · rw [if_neg]
      · exact ⟨fun _ => hs, fun _ => rfl⟩
      · rintro (h | h)
        · exact h rfl
        · exact h hs
    · rw [if_pos (Or.inr hs)]
      exact ⟨fun h => by simp at h, fun h => absurd h hs⟩

/-- C8 witness: concrete run of the state machine. -/
theorem push_manager_state_machine_witness :
    pm_start ⟨false, false, []⟩ ⟨some "192.168.0.2", true⟩ =
      (true, ⟨true, true, []⟩) ∧
    ((pm_cancel ⟨true, true, ["a1"]⟩ "a1").push_running = false ↔
      (["a1"].filter (· ≠ "a1")) = []) := by
  constructor
  · exact (push_manager_state_machine ⟨false, false, []⟩
      ⟨some "192.168.0.2", true⟩ "a1").1 rfl (by simp) rfl
  · exact (push_manager_state_machine ⟨true, true, ["a1"]⟩
      ⟨some "192.168.0.2", true⟩ "a1").2.2.2.2 rfl

/-- C1: the only outcomes of `send` are success, timeout (deadline with
no method-matching response), connection error (OS-level socket error),
method-not-found (error code `-32601`), or the generic connection-class
failure (any other error object). -/
theorem send_outcome_spec (outstanding : String) (ev : AwaitEvent) :
    ((∃ r, sendOutcome outstanding ev = .ok r) ∨
      sendOutcome outstanding ev = .error .timeoutErr ∨
      (∃ m, sendOutcome outstanding ev = .error (.connectionErr m)) ∨
      sendOutcome outstanding ev = .error .methodNotFoundErr) ∧
    (∀ r, sendOutcome outstanding ev = .ok r →
      ev = .datagram (some r) ∧ r.method = some outstanding ∧ r.errorCode = none) ∧
    (sendOutcome outstanding ev = .error .timeoutErr ↔
      (ev = .timeout ∨
        ∃ d, ev = .datagram (some d) ∧ d.method ≠ some outstanding)) ∧
    (∀ m, ev = .socketError m →
      sendOutcome outstanding ev = .error (.connectionErr m)) ∧
    (∀ d, ev = .datagram (some d) → d.method = some outstanding →
      (d.errorCode = some (-32601) →
        sendOutcome outstanding ev = .error .methodNotFoundErr) ∧
      (∀ c, d.errorCode = some c → c ≠ -32601 →
        sendOutcome outstanding ev = .error (.connectionErr "Error recieved")) ∧
      (d.errorCode = none → sendOutcome outstanding ev = .ok d)) := by
  cases ev with
  | timeout =>
    refine ⟨Or.inr (Or.inl rfl), ?_, ?_, ?_, ?_⟩
    · intro r h; exact absurd h (by simp [sendOutcome])
    · simp [sendOutcome]
    · intro m h; exact absurd h (by simp)
    · intro d h; exact absurd h (by simp)
  | socketError m =>
    refine ⟨Or.inr (Or.inr (Or.inl ⟨m, rfl⟩)), ?_, ?_, ?_, ?_⟩
    · intro r h; exact absurd h (by simp [sendOutcome])
    · simp [sendOutcome]
    · intro m' h
      rw [AwaitEvent.socketError.injEq] at h
      rw [h]
      rfl
    · intro d h; exact absurd h (by simp)
  | datagram raw =>
    cases raw with
    | none =>
      refine ⟨Or.inr (Or.inr (Or.inl ⟨_, rfl⟩)), ?_, ?_, ?_, ?_⟩
      · intro r h; exact absurd h (by simp [sendOutcome, on_response])
      · simp [sendOutcome, on_response]
      · intro m h; exact absurd h (by simp)
      · intro d h; exact absurd h (by simp)
    | some d =>
      by_cases hm : d.method = some outstanding
      · have hred : sendOutcome outstanding (.datagram (some d)) =
            classifyResponse d := by
          simp [sendOutcome, on_response, hm]
        rcases hec : d.errorCode with - | c
        · have hok : sendOutcome outstanding (.datagram (some d)) = .ok d := by
            rw [hred]; simp [classifyResponse, hec]
          refine ⟨Or.inl ⟨d, hok⟩, ?_, ?_, ?_, ?_⟩
          · intro r h
            rw [hok] at h
            rw [Except.ok.injEq] at h
            subst h
            exact ⟨rfl, hm, hec⟩
          · rw [hok]
            simp [hm]
          · intro m h; exact absurd h (by simp)
          · intro d' hd' hm'
            rw [AwaitEvent.datagram.injEq, Option.some.injEq] at hd'
            subst hd'
            exact ⟨fun h => by rw [hec] at h; exact absurd h (by simp),
              fun c h _ => by rw [hec] at h; exact absurd h (by simp),
              fun _ => hok⟩
        · by_cases hc : c = -32601
          · subst hc
            have hmnf : sendOutcome outstanding (.datagram (some d)) =
                .error .methodNotFoundErr := by
              rw [hred]; simp [classifyResponse, hec]
            refine ⟨Or.inr (Or.inr (Or.inr hmnf)), ?_, ?_, ?_, ?_⟩
            · intro r h; rw [hmnf] at h; exact absurd h (by simp)
            · rw [hmnf]
              simp [hm]
            · intro m h; exact absurd h (by simp)
            · intro d' hd' hm'
              rw [AwaitEvent.datagram.injEq, Option.some.injEq] at hd'
              subst hd'
              exact ⟨fun _ => hmnf,
                fun c' h hne => by
                  rw [hec, Option.some.injEq] at h
                  exact absurd h.symm hne,
                fun h => by rw [hec] at h; exact absurd h (by simp)⟩
          · have hconn : sendOutcome outstanding (.datagram (some d)) =
                .error (.connectionErr "Error recieved") := by
              rw [hred]; simp [classifyResponse, hec, hc]
            refine ⟨Or.inr (Or.inr (Or.inl ⟨_, hconn⟩)), ?_, ?_, ?_, ?_⟩
            · intro r h; rw [hconn] at h; exact absurd h (by simp)
            · rw [hconn]
              simp [hm]
            · intro m h; exact absurd h (by simp)
            · intro d' hd' hm'
              rw [AwaitEvent.datagram.injEq, Option.some.injEq] at hd'
              subst hd'
              exact ⟨fun h => by
                  rw [hec, Option.some.injEq] at h
                  exact absurd h hc,
                fun c' h _ => hconn,
                fun h => by rw [hec] at h; exact absurd h (by simp)⟩
      · have hto : sendOutcome outstanding (.datagram (some d)) =
            .error .timeoutErr := by
          simp [sendOutcome, on_response, hm]
        refine ⟨Or.inr (Or.inl hto), ?_, ?_, ?_, ?_⟩
        · intro r h; rw [hto] at h; exact absurd h (by simp)
        · rw [hto]
          simp only [true_iff]
          exact Or.inr ⟨d, rfl, hm⟩
        · intro m h; exact absurd h (by simp)
        · intro d' hd' hm'
          rw [AwaitEvent.datagram.injEq, Option.some.injEq] at hd'
          subst hd'
          exact absurd hm' hm

/-- C1 witness: a matching response with error code `-32601` raises the
method-not-found condition; a matching error-free response is returned. -/
theorem send_outcome_spec_witness :
    (⟨some "getModelConfig", some (-32601)⟩ : WizResponse).method =
        some "getModelConfig" ∧
    sendOutcome "getModelConfig"
        (.datagram (some ⟨some "getModelConfig", some (-32601)⟩)) =
      .error .methodNotFoundErr ∧
    sendOutcome "getPilot" (.datagram (some ⟨some "getPilot", none⟩)) =
      .ok ⟨some "getPilot", none⟩ := by
  refine ⟨rfl, ?_, ?_⟩
  · exact ((send_outcome_spec "getModelConfig"
      (.datagram (some ⟨some "getModelConfig", some (-32601)⟩))).2.2.2.2
      ⟨some "getModelConfig", some (-32601)⟩ rfl rfl).1 rfl
  · exact ((send_outcome_spec "getPilot"
      (.datagram (some ⟨some "getPilot", none⟩))).2.2.2.2
      ⟨some "getPilot", none⟩ rfl rfl).2.2 rfl

/-- Helper: `Except.bind` followed by `pure` is the identity. -/
theorem exceptBindOkId (x : Except String Params) :
    (x.bind fun p => Except.ok p) = x := by
  cases x <;> rfl

/-- Helper: invert a successful `Except.bind`. -/
theorem exceptBindOk {x : Except String Params}
    {f : Params → Except String Params} {p : Params}
    (h : x.bind f = .ok p) : ∃ q, x = .ok q ∧ f q = .ok p := by
  cases x with
  | error e => exact absurd h (by simp [Except.bind])
  | ok q => exact ⟨q, rfl, h⟩

/-- Helper: a `PilotBuilder` call that only sets brightness reduces to
`_set_brightness` on the empty params dict. -/
theorem pilotBuilder_brightness_red (b : ℤ) :
    pilotBuilder { brightness := some b } =
      (set_brightness [] b).bind fun p => Except.ok p := rfl

/-- C3 counterexample: brightness input `257` has percent equivalent
`101 > 100`, yet `PilotBuilder` stores `dimming = 101` instead of
raising (the code checks `percent > 101`, not `> 100`). -/
theorem set_brightness_101_counterexample :
    hex_to_percent ((257 : ℤ) : ℚ) = 101 ∧ (100 : ℤ) < 101 ∧
    pilotBuilder { brightness := some 257 } =
      .ok [("dimming", JVal.i 101)] := by
  have e : hex_to_percent ((257 : ℤ) : ℚ) = 101 := by
    unfold hex_to_percent
    rw [show ((257 : ℤ) : ℚ) / 255 * 100 = 5140 / 51 by norm_num]
    exact pyRound_high (n := 100) (by norm_num) (by norm_num)
  refine ⟨e, by norm_num, ?_⟩
  rw [pilotBuilder_brightness_red]
  unfold set_brightness
  rw [e, if_neg (by norm_num)]
  rfl

/-- C3 (amended): `PilotBuilder` converts a 0-255 brightness via
`round(b/255*100)` and stores `dimming = max(10, percent)`; percent
equivalents below 10 silently become 10; inputs are rejected as out of
range exactly when the percent equivalent exceeds 101 (not 100). -/
theorem set_brightness_spec (b : ℤ) :
    hex_to_percent (b : ℚ) = pyRound ((b : ℚ) / 255 * 100) ∧
    (hex_to_percent (b : ℚ) ≤ 101 →
      pilotBuilder { brightness := some b } =
        .ok [("dimming", JVal.i (max 10 (hex_to_percent (b : ℚ))))]) ∧
    (101 < hex_to_percent (b : ℚ) →
      pilotBuilder { brightness := some b } =
        .error "Max value can be 100% with 255.") ∧
    (hex_to_percent (b : ℚ) < 10 →
      pilotBuilder { brightness := some b } =
        .ok [("dimming", JVal.i 10)]) := by
  refine ⟨rfl, fun h => ?_, fun h => ?_, fun h => ?_⟩
  · rw [pilotBuilder_brightness_red]
    unfold set_brightness
    rw [if_neg (by omega)]
    rfl
  · rw [pilotBuilder_brightness_red]
    unfold set_brightness
    rw [if_pos (by omega)]
    rfl
  · rw [pilotBuilder_brightness_red]
    unfold set_brightness
    rw [if_neg (by omega), show max 10 (hex_to_percent (b : ℚ)) = 10 by omega]
    rfl

/-- C3 witness: brightness `5` is 2 percent, below the hardware floor,
and is stored as `dimming = 10`. -/
theorem set_brightness_spec_witness :
    hex_to_percent ((5 : ℤ) : ℚ) < 10 ∧
    pilotBuilder { brightness := some 5 } = .ok [("dimming", JVal.i 10)] := by
  have e : hex_to_percent ((5 : ℤ) : ℚ) = 2 := by
    unfold hex_to_percent
    rw [show ((5 : ℤ) : ℚ) / 255 * 100 = 100 / 51 by norm_num]
    exact pyRound_high (n := 1) (by norm_num) (by norm_num)
  exact ⟨by rw [e]; norm_num, (set_brightness_spec 5).2.2.2 (by rw [e]; norm_num)⟩

/-- Helper: a successful `_set_warm_white` stores the value at `"w"`. -/
theorem set_warm_white_ok {p q : Params} {v : ℤ}
    (h : set_warm_white p v = .ok q) : q = dictSet p "w" (.i v) := by
  unfold set_warm_white at h
  by_cases hc : 0 ≤ v ∧ v < 256
  · rw [if_pos hc] at h
    exact (Except.ok.injEq _ _ ▸ h).symm
  · rw [if_neg hc] at h
    exact absurd h (by simp)

/-- Helper: a successful `_set_cold_white` stores the value at `"c"`. -/
theorem set_cold_white_ok {p q : Params} {v : ℤ}
    (h : set_cold_white p v = .ok q) : q = dictSet p "c" (.i v) := by
  unfold set_cold_white at h
  by_cases hc : 0 ≤ v ∧ v < 256
  · rw [if_pos hc] at h
    exact (Except.ok.injEq _ _ ▸ h).symm
  · rw [if_neg hc] at h
    exact absurd h (by simp)

/-- Helper: `postColor` with an explicit warm white unfolds to the
warm-white step followed by the cold-white step. -/
theorem postColor_some_warm (v : ℤ) (cold : Option ℤ) (p : Params) :
    postColor (some v) cold p =
      (set_warm_white p v).bind fun q =>
        match cold with
        | some c => set_cold_white q c
        | none => Except.ok q := rfl

/-- Helper: `postColor` with an explicit cold white ends by setting the
`"c"` channel. -/
theorem postColor_some_cold (warm : Option ℤ) (v : ℤ) (p : Params) :
    postColor warm (some v) p =
      (match warm with
        | some w => set_warm_white p w
        | none => Except.ok p).bind fun q => set_cold_white q v := by
  cases warm <;> rfl

/-- C6: when several color directives are supplied at once, the
`if/elif` chain applies exactly one, in the fixed priority order
`rgb > rgbw > rgbww > colortemp > hucolor` — all lower-priority
directives are ignored (removing them does not change the result); and
explicitly supplied `warm_white`/`cold_white` run last, so any
successful build carries exactly those values on the `"w"`/`"c"`
channels. -/
theorem pilot_builder_color_priority (a : PBArgs) :
    (a.rgb ≠ none →
      pilotBuilder a = pilotBuilder
        { a with rgbw := none, rgbww := none, colortemp := none, hucolor := none }) ∧
    (a.rgb = none → a.rgbw ≠ none →
      pilotBuilder a = pilotBuilder
        { a with rgbww := none, colortemp := none, hucolor := none }) ∧
    (a.rgb = none → a.rgbw = none → a.rgbww ≠ none →
      pilotBuilder a = pilotBuilder
        { a with colortemp := none, hucolor := none }) ∧
    (a.rgb = none → a.rgbw = none → a.rgbww = none → a.colortemp ≠ none →
      pilotBuilder a = pilotBuilder { a with hucolor := none }) ∧
    (∀ v p, a.warm_white = some v → pilotBuilder a = .ok p →
      dictGet p "w" = some (.i v)) ∧
    (∀ v p, a.cold_white = some v → pilotBuilder a = .ok p →
      dictGet p "c" = some (.i v)) := by
  obtain ⟨ww, cw, sp, sc, rgb, rgbw, rgbww, hu, br, ct, st, ra⟩ := a
  refine ⟨fun h => ?_, fun h0 h => ?_, fun h0 h1 h => ?_, fun h0 h1 h2 h => ?_,
    fun v p hv hok => ?_, fun v p hv hok => ?_⟩
  · obtain ⟨x, hx⟩ := Option.ne_none_iff_exists'.mp h
    subst hx
    rfl
  · subst h0
    obtain ⟨x, hx⟩ := Option.ne_none_iff_exists'.mp h
    subst hx
    rfl
  · subst h0; subst h1
    obtain ⟨x, hx⟩ := Option.ne_none_iff_exists'.mp h
    subst hx
    rfl
  · subst h0; subst h1; subst h2
    obtain ⟨x, hx⟩ := Option.ne_none_iff_exists'.mp h
    subst hx
    rfl
  · subst hv
    obtain ⟨p1, hpre, h2⟩ := exceptBindOk hok
    obtain ⟨p2, hcs, h3⟩ := exceptBindOk h2
    dsimp only at h3
    rw [postColor_some_warm] at h3
    obtain ⟨p3, hw, h4⟩ := exceptBindOk h3
    have hp3 : p3 = dictSet p2 "w" (.i v) := set_warm_white_ok hw
    cases cw with
    | none =>
      have h4' : Except.ok p3 = Except.ok p := h4
      have hp : p = p3 := (Except.ok.injEq _ _ ▸ h4').symm
      rw [hp, hp3]
      exact dictGet_dictSet_self _ _ _
    | some vc =>
      have h4' : set_cold_white p3 vc = Except.ok p := h4
      have hp : p = dictSet p3 "c" (.i vc) := set_cold_white_ok h4'
      rw [hp, dictGet_dictSet_ne _ _ _ _ (by decide), hp3]
      exact dictGet_dictSet_self _ _ _
  · subst hv
    obtain ⟨p1, hpre, h2⟩ := exceptBindOk hok
    obtain ⟨p2, hcs, h3⟩ := exceptBindOk h2
    dsimp only at h3
    rw [postColor_some_cold] at h3
    obtain ⟨p3, hw, h4⟩ := exceptBindOk h3
    have hp : p = dictSet p3 "c" (.i v) := set_cold_white_ok h4
    rw [hp]
    exact dictGet_dictSet_self _ _ _

/-- The argument combination for the priority witness: all five color
directives at once, plus an explicit warm white. -/
def allColorArgs : PBArgs where
  rgb := some ((255 : ℝ), 0, 0)
  rgbw := some (1, 2, 3, 4)
  rgbww := some (1, 2, 3, 4, 5)
  colortemp := some 3000
  hucolor := some ((120 : ℝ), (50 : ℝ))
  warm_white := some 42

/-- C6 witness: with all five color directives supplied, only `rgb`
matters, and an explicit `warm_white` lands on `"w"`. -/
theorem pilot_builder_color_priority_witness :
    allColorArgs.rgb ≠ none ∧
    pilotBuilder allColorArgs =
      pilotBuilder
        { allColorArgs with
          rgbw := none, rgbww := none, colortemp := none, hucolor := none } ∧
    (∀ p, pilotBuilder allColorArgs = .ok p →
      dictGet p "w" = some (.i 42)) := by
  refine ⟨by simp [allColorArgs], ?_, ?_⟩
  · exact (pilot_builder_color_priority allColorArgs).1 (by simp [allColorArgs])
  · intro p hp
    exact (pilot_builder_color_priority allColorArgs).2.2.2.2.1 42 p rfl hp

/-- Helper: an out-of-range triple makes `_set_rgb` fail with the
message of the first offending component, before the conversion result
is consulted. -/
theorem set_rgb_err {p : Params} {v : V3}
    (h : ¬ (0 ≤ v.1 ∧ v.1 < 256 ∧ 0 ≤ v.2.1 ∧ v.2.1 < 256 ∧
      0 ≤ v.2.2 ∧ v.2.2 < 256)) :
    set_rgb p v = .error (rgbErrMsg v) := by
  unfold set_rgb rgb_in_range_or_raise rgbErrMsg
  by_cases h1 : 0 ≤ v.1 ∧ v.1 < 256
  · by_cases h2 : 0 ≤ v.2.1 ∧ v.2.1 < 256
    · have h3 : ¬ (0 ≤ v.2.2 ∧ v.2.2 < 256) := by tauto
      simp only [if_neg (not_not.mpr h1), if_neg (not_not.mpr h2), if_pos h3]
    · simp only [if_neg (not_not.mpr h1), if_pos h2]
  · simp only [if_pos h1]

/-- C7: constructing a `PilotBuilder` whose `rgb` triple has any
component outside `[0, 256)` fails with the range-validation error
naming the first offending component; the error is produced by the
range check that runs before the `rgb2rgbcw` conversion, and
`PilotBuilder` construction involves no network I/O at all. -/
theorem pilot_builder_rgb_range_error (r g b : ℝ)
    (h : ¬ (0 ≤ r ∧ r < 256 ∧ 0 ≤ g ∧ g < 256 ∧ 0 ≤ b ∧ b < 256)) :
    pilotBuilder { rgb := some (r, g, b) } = .error (rgbErrMsg (r, g, b)) := by
  have hred : pilotBuilder { rgb := some (r, g, b) } =
      (set_rgb [] (r, g, b)).bind (postColor none none) := rfl
  rw [hred, set_rgb_err h]
  rfl

/-- C7 witness: `rgb=(300,0,0)` is rejected with the red-channel range
error. -/
theorem pilot_builder_rgb_range_error_witness :
    ¬ ((0 : ℝ) ≤ 300 ∧ (300 : ℝ) < 256 ∧ (0 : ℝ) ≤ 0 ∧ (0 : ℝ) < 256 ∧
        (0 : ℝ) ≤ 0 ∧ (0 : ℝ) < 256) ∧
    pilotBuilder { rgb := some ((300 : ℝ), 0, 0) } =
      .error "Red is not in range between 0-255." := by
  have h : ¬ ((0 : ℝ) ≤ 300 ∧ (300 : ℝ) < 256 ∧ (0 : ℝ) ≤ 0 ∧ (0 : ℝ) < 256 ∧
      (0 : ℝ) ≤ 0 ∧ (0 : ℝ) < 256) := by
    rintro ⟨-, h2, -⟩
    norm_num at h2
  refine ⟨h, ?_⟩
  rw [pilot_builder_rgb_range_error 300 0 0 h]
  have e : rgbErrMsg ((300 : ℝ), 0, 0) = "Red is not in range between 0-255." := by
    unfold rgbErrMsg
    rw [if_pos (by norm_num)]
  rw [e]

/-- C2: the white blend of `trapezoid`: at saturation at most `EPSILON`
the output is black with full white `CWMAX = 128`; below `0.5` the white
channel is `CWMAX` and the RGB coefficients are scaled by `2s`; from
`0.5` on the RGB coefficients stay saturated and the white channel is
`int((1 - (s - 0.5) * 2) * 128)`; the RGB output is the coefficients
scaled by 255 and truncated; the white output always lies in `[0, 128]`;
and both branch formulas give `128` at the boundary `s = 0.5`. -/
theorem trapezoid_white_blend (v : V2) (s : ℝ) (h0 : 0 ≤ s) (h1 : s ≤ 1) :
    (s ≤ EPSILON → trapezoid v s = ((0, 0, 0), CWMAX)) ∧
    (s < 1 / 2 → (trapezoid v s).2 = CWMAX ∧
      (trapezoid v s).1 =
        vecInt3 (vecMul3 (vecMul3 (saturatedRGB v s) (s * 2)) 255)) ∧
    (1 / 2 ≤ s →
      (trapezoid v s).1 = vecInt3 (vecMul3 (saturatedRGB v s) 255) ∧
      (trapezoid v s).2 = ⌊(1 - (s - 1 / 2) * 2) * 128⌋) ∧
    (0 ≤ (trapezoid v s).2 ∧ (trapezoid v s).2 ≤ 128) ∧
    (s = 1 / 2 → (trapezoid v s).2 = CWMAX) := by
  have hcast : ((CWMAX : ℤ) : ℝ) = 128 := by norm_num [CWMAX]
  refine ⟨fun hs => ?_, fun hs => ?_, fun hs => ?_, ?_, fun hs => ?_⟩
  · have hlt : ¬ (s ≥ 1 / 2) := by
      have he : EPSILON < 1 / 2 := by norm_num [EPSILON]
      exact not_le.mpr (lt_of_le_of_lt hs he)
    simp only [trapezoid, saturatedRGB, if_pos hs, if_neg hlt]
    simp only [vecMul3, vecInt3, pyInt, hcast]
    norm_num [CWMAX]
  · have hlt : ¬ (s ≥ 1 / 2) := not_le.mpr hs
    constructor
    · simp only [trapezoid, if_neg hlt, hcast]
      norm_num [pyInt, CWMAX]
    · simp only [trapezoid, if_neg hlt]
  · have hge : s ≥ 1 / 2 := hs
    constructor
    · simp only [trapezoid, if_pos hge]
    · simp only [trapezoid, if_pos hge, hcast]
      have hnn : (0 : ℝ) ≤ (1 - (s - 1 / 2) * 2) * 128 := by nlinarith
      rw [max_eq_right hnn]
      unfold pyInt
      rw [if_pos hnn]
  · by_cases hge : s ≥ 1 / 2
    · simp only [trapezoid, if_pos hge, hcast]
      have hle : (1 - (s - 1 / 2) * 2) * 128 ≤ 128 := by nlinarith
      have hm : max 0 ((1 - (s - 1 / 2) * 2) * 128) ≤ 128 :=
        max_le (by norm_num) hle
      have h0m : (0 : ℝ) ≤ max 0 ((1 - (s - 1 / 2) * 2) * 128) := le_max_left _ _
      unfold pyInt
      rw [if_pos h0m]
      constructor
      · exact Int.floor_nonneg.mpr h0m
      · calc ⌊max 0 ((1 - (s - 1 / 2) * 2) * 128)⌋ ≤ ⌊(128 : ℝ)⌋ :=
            Int.floor_le_floor hm
          _ = 128 := by norm_num
    · simp only [trapezoid, if_neg hge, hcast]
      norm_num [pyInt]
  · subst hs
    simp only [trapezoid, if_pos (by norm_num : (1 : ℝ) / 2 ≥ 1 / 2), hcast]
    norm_num [pyInt, CWMAX]

/-- C2 witness: the saturated branch at `s = 0.7` on the unit red hue
vector. -/
theorem trapezoid_white_blend_witness :
    (0 : ℝ) ≤ 7 / 10 ∧ (7 / 10 : ℝ) ≤ 1 ∧ (1 / 2 : ℝ) ≤ 7 / 10 ∧
    ((trapezoid (1, 0) (7 / 10)).1 =
      vecInt3 (vecMul3 (saturatedRGB (1, 0) (7 / 10)) 255) ∧
    (trapezoid (1, 0) (7 / 10)).2 =
      ⌊((1 : ℝ) - (7 / 10 - 1 / 2) * 2) * 128⌋) := by
  refine ⟨by norm_num, by norm_num, by norm_num, ?_⟩
  exact (trapezoid_white_blend (1, 0) (7 / 10) (by norm_num) (by norm_num)).2.2.1
    (by norm_num)

/-! ### Facts about the basis vectors and the mask threshold -/

open Real

theorem BASIS0_eq : BASIS0 = (1, 0) := by
  simp [BASIS0, vecFromAngle]

theorem BASIS1_eq : BASIS1 = (-(1 / 2), Real.sqrt 3 / 2) := by
  have h : ANGLE = π - π / 3 := by unfold ANGLE; ring
  unfold BASIS1 vecFromAngle
  rw [h, Real.cos_pi_sub, Real.sin_pi_sub, Real.cos_pi_div_three,
    Real.sin_pi_div_three]

theorem BASIS2_eq : BASIS2 = (-(1 / 2), -(Real.sqrt 3 / 2)) := by
  have h : ANGLE * 2 = π + π / 3 := by unfold ANGLE; ring
  unfold BASIS2 vecFromAngle
  rw [h, Real.cos_add, Real.sin_add, Real.cos_pi, Real.sin_pi,
    Real.cos_pi_div_three, Real.sin_pi_div_three]
  norm_num

theorem maxAngle_lt_half : maxAngle < 1 / 2 := by
  unfold maxAngle EPSILON
  have h3 : (3 : ℝ) < π := Real.pi_gt_three
  have h := Real.cos_lt_cos_of_nonneg_of_le_pi
    (show (0 : ℝ) ≤ π / 3 by linarith)
    (show π * 2 / 3 - 1 / 100000 ≤ π by linarith)
    (show π / 3 < π * 2 / 3 - 1 / 100000 by linarith)
  rw [Real.cos_pi_div_three] at h
  linarith

theorem maxAngle_neg : maxAngle < 0 := by
  unfold maxAngle EPSILON
  have h3 : (3 : ℝ) < π := Real.pi_gt_three
  have h := Real.cos_lt_cos_of_nonneg_of_le_pi
    (show (0 : ℝ) ≤ π / 2 by linarith)
    (show π * 2 / 3 - 1 / 100000 ≤ π by linarith)
    (show π / 2 < π * 2 / 3 - 1 / 100000 by linarith)
  rw [Real.cos_pi_div_two] at h
  linarith

theorem neg_half_lt_maxAngle : -(1 / 2) < maxAngle := by
  unfold maxAngle EPSILON
  have h3 : (3 : ℝ) < π := Real.pi_gt_three
  have h := Real.cos_lt_cos_of_nonneg_of_le_pi
    (show (0 : ℝ) ≤ π * 2 / 3 - 1 / 100000 by linarith)
    (show π * 2 / 3 ≤ π by linarith)
    (show π * 2 / 3 - 1 / 100000 < π * 2 / 3 by linarith)
  have hc : cos (π * 2 / 3) = -(1 / 2) := by
    rw [show π * 2 / 3 = π - π / 3 by ring, Real.cos_pi_sub,
      Real.cos_pi_div_three]
  rw [hc] at h
  linarith

theorem sqrt3_sq : Real.sqrt 3 * Real.sqrt 3 = 3 :=
  Real.mul_self_sqrt (by norm_num)

theorem sqrt3_pos : (0 : ℝ) < Real.sqrt 3 :=
  Real.sqrt_pos.mpr (by norm_num)

theorem one_le_sqrt3 : (1 : ℝ) ≤ Real.sqrt 3 := by
  rw [show (1 : ℝ) = Real.sqrt 1 from (Real.sqrt_one).symm]
  exact Real.sqrt_le_sqrt (by norm_num)

theorem sqrt3_lt_two : Real.sqrt 3 < 2 :=
  (Real.sqrt_lt' (by norm_num)).mpr (by norm_num)

theorem sqrt3_lt : Real.sqrt 3 < 17321 / 10000 :=
  (Real.sqrt_lt' (by norm_num)).mpr (by norm_num)

/-- The mask of the pure red hue vector `(1, 0)` selects only the first
basis vector, so the saturated RGB coefficients are `(1, 0, 0)`. -/
theorem satRGB_unit_red : satRGB (1, 0) = (1, 0, 0) := by
  have h0 : vecDot (1, 0) BASIS0 = 1 := by rw [BASIS0_eq]; norm_num [vecDot]
  have h1 : vecDot (1, 0) BASIS1 = -(1 / 2) := by
    rw [BASIS1_eq]; norm_num [vecDot]
  have h2 : vecDot (1, 0) BASIS2 = -(1 / 2) := by
    rw [BASIS2_eq]; norm_num [vecDot]
  have hm1 : maxAngle < 1 := lt_trans maxAngle_lt_half (by norm_num)
  have hm2 : ¬ (maxAngle < -(1 / 2)) := not_lt.mpr (le_of_lt neg_half_lt_maxAngle)
  simp only [satRGB, h0, h1, h2, if_pos hm1, if_neg hm2]

/-- The hue vector of a pure-red triple. -/
theorem hueVecOf_red (t : ℝ) : hueVecOf (t, 0, 0) = (t / 255, 0) := by
  simp only [hueVecOf, vecMul3, vecMul, vecAdd, BASIS0_eq, BASIS1_eq, BASIS2_eq]
  rw [Prod.mk.injEq]
  constructor <;> ring

theorem vecLen_red (t : ℝ) (h1 : 1 ≤ t) : vecLen (t / 255, 0) = t / 255 := by
  unfold vecLen vecLenSq vecDot
  have hgt : t / 255 * (t / 255) + 0 * 0 > EPSILON := by
    unfold EPSILON
    nlinarith
  rw [if_pos hgt, show t / 255 * (t / 255) + 0 * 0 = (t / 255) ^ 2 by ring]
  exact Real.sqrt_sq (by linarith)

theorem pyInt_intCast (n : ℤ) : pyInt ((n : ℤ) : ℝ) = n := by
  unfold pyInt
  by_cases h : (0 : ℝ) ≤ (n : ℝ)
  · rw [if_pos h, Int.floor_intCast]
  · rw [if_neg h, Int.ceil_intCast]

/-- The RGB part of `rgb2rgbcw` on a pure-red triple is a pure-red
integer triple with a positive red component (either `2t` below the
half-saturation split or `255` above it). -/
theorem rgb2rgbcw_red_rgb (t : ℤ) (h1 : 1 ≤ t) (h2 : t ≤ 255) :
    ∃ r : ℤ, (rgb2rgbcw ((t : ℝ), 0, 0)).1 = (r, 0, 0) ∧ 1 ≤ r := by
  have ht1 : (1 : ℝ) ≤ (t : ℝ) := by exact_mod_cast h1
  have ht0 : (0 : ℝ) < (t : ℝ) := by linarith
  simp only [rgb2rgbcw]
  rw [hueVecOf_red, vecLen_red _ ht1]
  have hgt : (t : ℝ) / 255 > EPSILON := by unfold EPSILON; linarith
  rw [if_pos hgt]
  have hnorm : vecMul ((t : ℝ) / 255, 0) (1 / ((t : ℝ) / 255)) = (1, 0) := by
    unfold vecMul
    rw [Prod.mk.injEq]
    constructor
    · field_simp
    · ring
  rw [hnorm]
  have hns : ¬ ((t : ℝ) / 255 ≤ EPSILON) := not_le.mpr hgt
  by_cases hbr : (t : ℝ) / 255 ≥ 1 / 2
  · refine ⟨255, ?_, by norm_num⟩
    simp only [trapezoid, saturatedRGB, if_pos hbr, if_neg hns, satRGB_unit_red]
    norm_num [vecInt3, vecMul3, pyInt]
  · refine ⟨2 * t, ?_, by omega⟩
    simp only [trapezoid, saturatedRGB, if_neg hbr, if_neg hns, satRGB_unit_red]
    simp only [vecInt3, vecMul3]
    have e1 : (1 : ℝ) * ((t : ℝ) / 255 * 2) * 255 = ((2 * t : ℤ) : ℝ) := by
      push_cast; ring
    rw [Prod.mk.injEq, Prod.mk.injEq]
    refine ⟨?_, ?_, ?_⟩
    · rw [e1, pyInt_intCast]
    · norm_num [pyInt]
    · norm_num [pyInt]

/-- The hue angle `rgbcw2hs` reports for a pure-red input is `0`,
independently of the white value. -/
theorem rgbcw2hs_red_hue (x w : ℝ) (hx : 0 < x) :
    (rgbcw2hs (x, 0, 0) w).1 = 0 := by
  simp only [rgbcw2hs]
  rw [hueVecOf_red]
  have hx' : 0 < x / 255 := by positivity
  have hatan : atan2 (0 : ℝ) (x / 255) = 0 := by
    unfold atan2
    rw [if_pos hx', zero_div, Real.arctan_zero]
  simp only [hatan, lt_irrefl 0, if_neg (lt_irrefl (0 : ℝ))]
  simp

/-- The hue angle of a pure-red RGB triple is `0` degrees. -/
theorem hueDegOf_red (x : ℝ) (hx : 0 < x) : hueDegOf (x, 0, 0) = 0 := by
  simp only [hueDegOf]
  rw [hueVecOf_red]
  have hx' : 0 < x / 255 := by positivity
  have hatan : atan2 (0 : ℝ) (x / 255) = 0 := by
    unfold atan2
    rw [if_pos hx', zero_div, Real.arctan_zero]
  simp only [hatan, if_neg (lt_irrefl (0 : ℝ))]
  simp

/-- C5 (amended): on the red axis — `(t, 0, 0)` for `1 ≤ t ≤ 255` —
the derived saturation is above the achromatic threshold and the
composition `rgbcw2hs ∘ rgb2rgbcw` reproduces the hue of the original
triple exactly (both are `0` degrees). -/
theorem red_axis_hue_roundtrip (t : ℤ) (ht1 : 1 ≤ t) (ht2 : t ≤ 255) :
    vecLen (hueVecOf ((t : ℝ), 0, 0)) > EPSILON ∧
    hueDegOf ((t : ℝ), 0, 0) = 0 ∧
    (rgbcw2hs (((rgb2rgbcw ((t : ℝ), 0, 0)).1.1 : ℝ),
        ((rgb2rgbcw ((t : ℝ), 0, 0)).1.2.1 : ℝ),
        ((rgb2rgbcw ((t : ℝ), 0, 0)).1.2.2 : ℝ))
      (((rgb2rgbcw ((t : ℝ), 0, 0)).2 : ℝ))).1 = hueDegOf ((t : ℝ), 0, 0) := by
  have ht1' : (1 : ℝ) ≤ (t : ℝ) := by exact_mod_cast ht1
  have hlen : vecLen (hueVecOf ((t : ℝ), 0, 0)) = (t : ℝ) / 255 := by
    rw [hueVecOf_red, vecLen_red _ ht1']
  refine ⟨?_, hueDegOf_red _ (by linarith), ?_⟩
  · rw [hlen]; unfold EPSILON; linarith
  · obtain ⟨r, hr, hrpos⟩ := rgb2rgbcw_red_rgb t ht1 ht2
    rw [hr, hueDegOf_red _ (by linarith)]
    dsimp only
    push_cast
    exact rgbcw2hs_red_hue _ _ (by exact_mod_cast (by omega : (0 : ℤ) < r))

/-- C5 amended-claim witness: `t = 200`. -/
theorem red_axis_hue_roundtrip_witness :
    (1 : ℤ) ≤ 200 ∧ (200 : ℤ) ≤ 255 ∧
    hueDegOf (((200 : ℤ) : ℝ), 0, 0) = 0 ∧
    (rgbcw2hs (((rgb2rgbcw (((200 : ℤ) : ℝ), 0, 0)).1.1 : ℝ),
        ((rgb2rgbcw (((200 : ℤ) : ℝ), 0, 0)).1.2.1 : ℝ),
        ((rgb2rgbcw (((200 : ℤ) : ℝ), 0, 0)).1.2.2 : ℝ))
      (((rgb2rgbcw (((200 : ℤ) : ℝ), 0, 0)).2 : ℝ))).1 =
      hueDegOf (((200 : ℤ) : ℝ), 0, 0) := by
  have h := red_axis_hue_roundtrip 200 (by norm_num) (by norm_num)
  exact ⟨by norm_num, by norm_num, h.2.1, h.2.2⟩

/-! ### The counterexample triple `(128, 127, 126)` -/

theorem hueVec_c5 : hueVecOf (128, 127, 126) = (1 / 170, Real.sqrt 3 / 510) := by
  simp only [hueVecOf, vecMul3, vecMul, vecAdd, BASIS0_eq, BASIS1_eq, BASIS2_eq]
  rw [Prod.mk.injEq]
  constructor <;> ring

theorem vecLen_c5 : vecLen (1 / 170, Real.sqrt 3 / 510) = Real.sqrt 3 / 255 := by
  unfold vecLen vecLenSq vecDot
  have he : (1 : ℝ) / 170 * (1 / 170) + Real.sqrt 3 / 510 * (Real.sqrt 3 / 510)
      = (Real.sqrt 3 / 255) ^ 2 := by
    rw [show (1 : ℝ) / 170 * (1 / 170) + Real.sqrt 3 / 510 * (Real.sqrt 3 / 510)
        = 1 / 28900 + Real.sqrt 3 * Real.sqrt 3 / 260100 by ring,
      show (Real.sqrt 3 / 255) ^ 2 = Real.sqrt 3 * Real.sqrt 3 / 65025 by ring,
      sqrt3_sq]
    norm_num
  rw [he]
  have hc : (Real.sqrt 3 / 255) ^ 2 > EPSILON := by
    rw [show (Real.sqrt 3 / 255) ^ 2 = Real.sqrt 3 * Real.sqrt 3 / 65025 by ring,
      sqrt3_sq]
    unfold EPSILON
    norm_num
  rw [if_pos hc]
  exact Real.sqrt_sq (by positivity)

theorem norm_c5 :
    vecMul (1 / 170, Real.sqrt 3 / 510) (1 / (Real.sqrt 3 / 255)) =
      (Real.sqrt 3 / 2, 1 / 2) := by
  have hne : Real.sqrt 3 ≠ 0 := ne_of_gt sqrt3_pos
  unfold vecMul
  rw [Prod.mk.injEq]
  constructor
  · field_simp
    nlinarith [sqrt3_sq]
  · field_simp
    ring

theorem satRGB_c5 : satRGB (Real.sqrt 3 / 2, 1 / 2) = (1, 1 / 2, 0) := by
  have hne : Real.sqrt 3 ≠ 0 := ne_of_gt sqrt3_pos
  have h0 : vecDot (Real.sqrt 3 / 2, 1 / 2) BASIS0 = Real.sqrt 3 / 2 := by
    rw [BASIS0_eq]; unfold vecDot; ring
  have h1 : vecDot (Real.sqrt 3 / 2, 1 / 2) BASIS1 = 0 := by
    rw [BASIS1_eq]; unfold vecDot; ring
  have h2 : vecDot (Real.sqrt 3 / 2, 1 / 2) BASIS2 = -(Real.sqrt 3 / 2) := by
    rw [BASIS2_eq]; unfold vecDot; ring
  have hm0 : maxAngle < Real.sqrt 3 / 2 := by
    have := maxAngle_lt_half
    have h13 := one_le_sqrt3
    linarith
  have hm1 : maxAngle < 0 := maxAngle_neg
  have hm2 : ¬ (maxAngle < -(Real.sqrt 3 / 2)) := by
    have := neg_half_lt_maxAngle
    have h13 := one_le_sqrt3
    exact not_lt.mpr (by linarith)
  have hAB : pairCoeff (Real.sqrt 3 / 2, 1 / 2) BASIS0 BASIS1 =
      (2 / Real.sqrt 3, 1 / Real.sqrt 3) := by
    rw [BASIS0_eq, BASIS1_eq]
    simp only [pairCoeff, vecDot, vecAdd, vecMul]
    rw [Prod.mk.injEq]
    constructor
    · field_simp
      nlinarith [sqrt3_sq]
    · field_simp
      nlinarith [sqrt3_sq]
  have hscaled : scaledCoeff (2 / Real.sqrt 3, 1 / Real.sqrt 3) = (1, 1 / 2) := by
    unfold scaledCoeff
    have hmax : max (2 / Real.sqrt 3) (1 / Real.sqrt 3) = 2 / Real.sqrt 3 :=
      max_eq_left ((div_le_div_iff_of_pos_right sqrt3_pos).mpr (by norm_num))
    rw [hmax, Prod.mk.injEq]
    constructor
    · exact div_self (by positivity)
    · rw [div_div_div_cancel_right₀]
      norm_num
  simp only [satRGB, h0, h1, h2, if_pos hm0, if_pos hm1, if_neg hm2]
  rw [hAB, hscaled]
  norm_num

theorem rgb2rgbcw_c5 : rgb2rgbcw (128, 127, 126) = ((3, 1, 0), 128) := by
  simp only [rgb2rgbcw]
  rw [hueVec_c5, vecLen_c5]
  have hgt : Real.sqrt 3 / 255 > EPSILON := by
    unfold EPSILON
    linarith [one_le_sqrt3]
  rw [if_pos hgt, norm_c5]
  have hns : ¬ (Real.sqrt 3 / 255 ≤ EPSILON) := not_le.mpr hgt
  have hbr : ¬ (Real.sqrt 3 / 255 ≥ 1 / 2) :=
    not_le.mpr (by linarith [sqrt3_lt_two])
  simp only [trapezoid, saturatedRGB, if_neg hns, if_neg hbr, satRGB_c5]
  simp only [vecMul3, vecInt3]
  rw [Prod.mk.injEq, Prod.mk.injEq, Prod.mk.injEq]
  refine ⟨⟨?_, ?_, ?_⟩, ?_⟩
  · rw [show (1 : ℝ) * (Real.sqrt 3 / 255 * 2) * 255 = 2 * Real.sqrt 3 by ring]
    unfold pyInt
    rw [if_pos (by positivity), Int.floor_eq_iff]
    constructor
    · push_cast
      nlinarith [sqrt3_sq, sqrt3_pos]
    · push_cast
      linarith [sqrt3_lt_two]
  · rw [show (1 : ℝ) / 2 * (Real.sqrt 3 / 255 * 2) * 255 = Real.sqrt 3 by ring]
    unfold pyInt
    rw [if_pos (by positivity), Int.floor_eq_iff]
    constructor
    · push_cast
      exact one_le_sqrt3
    · push_cast
      linarith [sqrt3_lt_two]
  · norm_num [pyInt]
  · norm_num [pyInt, CWMAX]

theorem rgbcw2hs_c5_hue :
    0 ≤ (rgbcw2hs (3, 1, 0) 128).1 ∧ (rgbcw2hs (3, 1, 0) 128).1 < 20 := by
  have hne : Real.sqrt 3 ≠ 0 := ne_of_gt sqrt3_pos
  have hv : hueVecOf (3, 1, 0) = (1 / 102, Real.sqrt 3 / 510) := by
    simp only [hueVecOf, vecMul3, vecMul, vecAdd, BASIS0_eq, BASIS1_eq, BASIS2_eq]
    rw [Prod.mk.injEq]
    constructor <;> ring
  have hpos : (0 : ℝ) < 1 / 102 := by norm_num
  have harg : (Real.sqrt 3 / 510) / (1 / 102) = Real.sqrt 3 / 5 := by
    field_simp
    ring
  have hatan : atan2 (Real.sqrt 3 / 510) (1 / 102) = Real.arctan (Real.sqrt 3 / 5) := by
    unfold atan2
    rw [if_pos hpos, harg]
  have hnonneg : 0 ≤ Real.arctan (Real.sqrt 3 / 5) := by
    have h := Real.arctan_strictMono.monotone
      (show (0 : ℝ) ≤ Real.sqrt 3 / 5 by positivity)
    rw [Real.arctan_zero] at h
    exact h
  have h1 : (rgbcw2hs (3, 1, 0) 128).1 =
      Real.arctan (Real.sqrt 3 / 5) * (180 / π) := by
    simp only [rgbcw2hs]
    rw [hv]
    dsimp only
    rw [hatan, if_neg (not_lt.mpr hnonneg)]
  constructor
  · rw [h1]
    exact mul_nonneg hnonneg (by positivity)
  · rw [h1]
    have hlt : Real.arctan (Real.sqrt 3 / 5) < Real.sqrt 3 / 5 := by
      have hx : (0 : ℝ) < Real.sqrt 3 / 5 := by positivity
      have ha0 : 0 < Real.arctan (Real.sqrt 3 / 5) := by
        have h := Real.arctan_strictMono hx
        rw [Real.arctan_zero] at h
        exact h
      have h2 := Real.lt_tan ha0 (Real.arctan_lt_pi_div_two _)
      rw [Real.tan_arctan] at h2
      exact h2
    have hb : Real.sqrt 3 / 5 * (180 / π) < 20 := by
      rw [show Real.sqrt 3 / 5 * (180 / π) = Real.sqrt 3 * 36 / π by ring,
        div_lt_iff₀ Real.pi_pos]
      have hpi : (3.1415 : ℝ) < π := Real.pi_gt_d4
      nlinarith [sqrt3_lt]
    calc Real.arctan (Real.sqrt 3 / 5) * (180 / π)
        < Real.sqrt 3 / 5 * (180 / π) :=
          mul_lt_mul_of_pos_right hlt (by positivity)
      _ < 20 := hb

theorem hueDegOf_c5 : hueDegOf (128, 127, 126) = 30 := by
  simp only [hueDegOf]
  rw [hueVec_c5]
  dsimp only
  have hpos : (0 : ℝ) < 1 / 170 := by norm_num
  have hne : Real.sqrt 3 ≠ 0 := ne_of_gt sqrt3_pos
  have harg : (Real.sqrt 3 / 510) / (1 / 170) = Real.sqrt 3 / 3 := by
    field_simp
    ring
  have htan : Real.sqrt 3 / 3 = Real.tan (π / 6) := by
    rw [Real.tan_pi_div_six]
    field_simp
  have hatan : atan2 (Real.sqrt 3 / 510) (1 / 170) = π / 6 := by
    unfold atan2
    rw [if_pos hpos, harg, htan,
      Real.arctan_tan (by linarith [Real.pi_pos]) (by linarith [Real.pi_pos])]
  rw [hatan, if_neg (not_lt.mpr (by linarith [Real.pi_pos] : (0 : ℝ) ≤ π / 6))]
  field_simp
  ring

/-- C5 counterexample: the triple `(128, 127, 126)` has derived
saturation above the achromatic threshold and hue exactly 30 degrees,
but `rgb2rgbcw` truncates its scaled output to `((3, 1, 0), 128)` and
feeding that back through `rgbcw2hs` returns a hue below 20 degrees —
more than 10 degrees away from the original hue, far beyond rounding
tolerance. -/
theorem hue_roundtrip_counterexample :
    vecLen (hueVecOf (128, 127, 126)) > EPSILON ∧
    hueDegOf (128, 127, 126) = 30 ∧
    rgb2rgbcw (128, 127, 126) = ((3, 1, 0), 128) ∧
    0 ≤ (rgbcw2hs (3, 1, 0) 128).1 ∧ (rgbcw2hs (3, 1, 0) 128).1 < 20 ∧
    10 < |hueDegOf (128, 127, 126) - (rgbcw2hs (3, 1, 0) 128).1| := by
  obtain ⟨hge0, hlt20⟩ := rgbcw2hs_c5_hue
  refine ⟨?_, hueDegOf_c5, rgb2rgbcw_c5, hge0, hlt20, ?_⟩
  · rw [hueVec_c5, vecLen_c5]
    unfold EPSILON
    linarith [one_le_sqrt3]
  · rw [hueDegOf_c5, abs_of_pos (by linarith)]
    linarith
